import Mathlib

set_option maxRecDepth 8192

/-!
Verification development for the avatar repository core:
the speech-number formatter in combined_server.py and the
RAG retrieval pipeline in rag.py, embedded shallowly in Lean.
-/

/-! ## Number-to-words (combined_server.py, number_to_words) -/

/-- The ones table of number_to_words. -/
def ones : List String :=
  ["", "one", "two", "three", "four", "five", "six", "seven", "eight", "nine"]

/-- The teens table of number_to_words. -/
def teens : List String :=
  ["ten", "eleven", "twelve", "thirteen", "fourteen", "fifteen",
   "sixteen", "seventeen", "eighteen", "nineteen"]

/-- The tens table of number_to_words. -/
def tens : List String :=
  ["", "", "twenty", "thirty", "forty", "fifty", "sixty", "seventy", "eighty", "ninety"]

/-- Python int() applied to a string of ASCII decimal digits
(the only strings the regex captures feed to number_to_words). -/
def strToNat (s : String) : Nat :=
  s.data.foldl (fun n c => 10 * n + (c.toNat - 48)) 0

/-- Embeds number_to_words from combined_server.py: converts the digit
string to a number and renders it; numbers of 1000 and above fall back
to the original digit string. -/
def number_to_words (numStr : String) : String :=
  let num := strToNat numStr
  if num = 0 then "zero"
  else if num < 10 then ones.getD num ""
  else if num < 20 then teens.getD (num - 10) ""
  else if num < 100 then
    tens.getD (num / 10) "" ++ (if num % 10 ≠ 0 then " " ++ ones.getD (num % 10) "" else "")
  else if num < 1000 then
    let hundreds := ones.getD (num / 100) "" ++ " hundred"
    let remainder := num % 100
    if remainder = 0 then hundreds
    else if remainder < 10 then hundreds ++ " and " ++ ones.getD remainder ""
    else if remainder < 20 then hundreds ++ " and " ++ teens.getD (remainder - 10) ""
    else hundreds ++ " and " ++ tens.getD (remainder / 10) ""
      ++ (if remainder % 10 ≠ 0 then " " ++ ones.getD (remainder % 10) "" else "")
  else numStr

/-! ## The three regex passes of format_numbers_for_speech

Python scans left to right; at each position the pattern either matches
(greedy digit runs, which is deterministic here because a shorter digit
run is always followed by another digit) or the scanner advances one
character.  A match is replaced and scanning resumes after it. -/

/-- Python regex \d restricted to the ASCII digits the inputs use. -/
def isDig (c : Char) : Bool := '0' ≤ c && c ≤ '9'

/-- Python regex \s on the ASCII whitespace characters. -/
def isSpc (c : Char) : Bool :=
  c = ' ' || c = '\t' || c = '\n' || c = '\x0d' || c = '\x0b' || c = '\x0c'

/-- Match of (\d+)-(\d+)% at the head of the character list:
returns both captured digit strings and the remainder. -/
def matchPR (cs : List Char) : Option (String × String × List Char) :=
  let d1 := cs.takeWhile isDig
  let r1 := cs.dropWhile isDig
  if d1.isEmpty then none else
  match r1 with
  | '-' :: r2 =>
    let d2 := r2.takeWhile isDig
    let r3 := r2.dropWhile isDig
    if d2.isEmpty then none else
    match r3 with
    | '%' :: rest => some (String.mk d1, String.mk d2, rest)
    | _ => none
  | _ => none

/-- The unit alternation (weeks|days|months|hours) at the head. -/
def matchUnit (cs : List Char) : Option (String × List Char) :=
  if "weeks".data.isPrefixOf cs then some ("weeks", cs.drop 5)
  else if "days".data.isPrefixOf cs then some ("days", cs.drop 4)
  else if "months".data.isPrefixOf cs then some ("months", cs.drop 6)
  else if "hours".data.isPrefixOf cs then some ("hours", cs.drop 5)
  else none

/-- Match of (\d+)-(\d+)\s+(weeks|days|months|hours) at the head. -/
def matchNR (cs : List Char) : Option (String × String × String × List Char) :=
  let d1 := cs.takeWhile isDig
  let r1 := cs.dropWhile isDig
  if d1.isEmpty then none else
  match r1 with
  | '-' :: r2 =>
    let d2 := r2.takeWhile isDig
    let r3 := r2.dropWhile isDig
    if d2.isEmpty then none else
    let sp := r3.takeWhile isSpc
    let r4 := r3.dropWhile isSpc
    if sp.isEmpty then none else
    match matchUnit r4 with
    | some (u, rest) => some (String.mk d1, String.mk d2, u, rest)
    | none => none
  | _ => none

/-- Match of (\d+)% at the head. -/
def matchSP (cs : List Char) : Option (String × List Char) :=
  let d1 := cs.takeWhile isDig
  let r1 := cs.dropWhile isDig
  if d1.isEmpty then none else
  match r1 with
  | '%' :: rest => some (String.mk d1, rest)
  | _ => none

/-- replace_percent_range from combined_server.py. -/
def replace_percent_range (a b : String) : String :=
  number_to_words a ++ " to " ++ number_to_words b ++ " percent"

/-- replace_number_range from combined_server.py. -/
def replace_number_range (a b u : String) : String :=
  number_to_words a ++ " to " ++ number_to_words b ++ " " ++ u

/-- replace_single_percent from combined_server.py. -/
def replace_single_percent (a : String) : String :=
  number_to_words a ++ " percent"

/-- Pass 1 step: replacement text and remainder when (\d+)-(\d+)% matches. -/
def stepPR (cs : List Char) : Option (List Char × List Char) :=
  (matchPR cs).map fun x => ((replace_percent_range x.1 x.2.1).data, x.2.2)

/-- Pass 2 step for (\d+)-(\d+)\s+(weeks|days|months|hours). -/
def stepNR (cs : List Char) : Option (List Char × List Char) :=
  (matchNR cs).map fun x => ((replace_number_range x.1 x.2.1 x.2.2.1).data, x.2.2.2)

/-- Pass 3 step for (\d+)%. -/
def stepSP (cs : List Char) : Option (List Char × List Char) :=
  (matchSP cs).map fun x => ((replace_single_percent x.1).data, x.2)

/-- Left-to-right scan of re.sub: on a match, emit the replacement and
resume after the match, otherwise keep one character and advance.  The
fuel argument (instantiated with the length of the text) only serves
termination; every match consumes at least one character. -/
def subAux (m : List Char → Option (List Char × List Char)) : Nat → List Char → List Char
  | 0, cs => cs
  | _ + 1, [] => []
  | fuel + 1, c :: cs =>
    match m (c :: cs) with
    | some (repl, rest) => repl ++ subAux m fuel rest
    | none => c :: subAux m fuel cs

/-- re.sub over a whole character list. -/
def reSub (m : List Char → Option (List Char × List Char)) (cs : List Char) : List Char :=
  subAux m cs.length cs

/-- Embeds format_numbers_for_speech from combined_server.py: the three
substitution passes applied in order, each to the previous output. -/
def format_numbers_for_speech (text : String) : String :=
  let t1 := reSub stepPR text.data
  let t2 := reSub stepNR t1
  let t3 := reSub stepSP t2
  String.mk t3

/-! ## Spec-side statement of the 0..999 conversion rules (claim C1) -/

/-- The 1..99 rendering rule as the spec states it: ones word for 1..9,
teens word for 10..19, tens word plus an optional space and ones word
(no "and") for 20..99. -/
def wordsSpecBelow100 (n : Nat) : String :=
  if n < 10 then ones.getD n ""
  else if n < 20 then teens.getD (n - 10) ""
  else tens.getD (n / 10) "" ++ (if n % 10 ≠ 0 then " " ++ ones.getD (n % 10) "" else "")

/-- The 0..999 rendering rule as the spec states it: "zero" for 0, the
1..99 rule below 100, and otherwise the ones word, " hundred", and for a
nonzero remainder " and " followed by the remainder under the 1..99 rule. -/
def wordsSpec (n : Nat) : String :=
  if n = 0 then "zero"
  else if n < 100 then wordsSpecBelow100 n
  else ones.getD (n / 100) "" ++ " hundred"
    ++ (if n % 100 ≠ 0 then " and " ++ wordsSpecBelow100 (n % 100) else "")

/-! ## A guard predicate: no pattern occurrence anywhere in a text -/

/-- True when the matcher fails at every position of the text. -/
def noMatchB (m : List Char → Option (List Char × List Char)) : List Char → Bool
  | [] => (m []).isNone
  | c :: cs => (m (c :: cs)).isNone && noMatchB m cs

/-! ## Spec-worded protected-replacement formatter (claim C5)

Modelled from the words of the spec, for comparison with the source
formatter: the spec asserts that earlier replacements are immune to
later patterns, so here each replacement becomes a locked segment that
later passes never look inside. -/

/-- A piece of text: still-plain characters, or a locked replacement. -/
inductive Seg where
  | plain : List Char → Seg
  | locked : List Char → Seg
deriving DecidableEq

/-- One substitution pass over plain text, producing locked segments
for the replacements and merging untouched characters into maximal
plain segments. -/
def subSegs (m : List Char → Option (List Char × List Char)) : Nat → List Char → List Seg
  | 0, cs => if cs.isEmpty then [] else [Seg.plain cs]
  | _ + 1, [] => []
  | fuel + 1, c :: cs =>
    match m (c :: cs) with
    | some (repl, rest) => Seg.locked repl :: subSegs m fuel rest
    | none =>
      match subSegs m fuel cs with
      | Seg.plain cs' :: segs => Seg.plain (c :: cs') :: segs
      | segs => Seg.plain [c] :: segs

/-- Apply a pass to every plain segment, leaving locked segments alone. -/
def passSegs (m : List Char → Option (List Char × List Char)) (l : List Seg) : List Seg :=
  (l.map fun sg =>
    match sg with
    | Seg.plain cs => subSegs m cs.length cs
    | Seg.locked cs => [Seg.locked cs]).flatten

/-- Forget the segment structure. -/
def flattenSegs (l : List Seg) : List Char :=
  (l.map fun sg =>
    match sg with
    | Seg.plain cs => cs
    | Seg.locked cs => cs).flatten

/-- Modelled from the spec: the formatter with replacements protected,
so that,  as the spec words it, earlier replacements are never
re-matched by later passes. -/
def formatProtectedSpec (text : String) : String :=
  let s1 := passSegs stepPR [Seg.plain text.data]
  let s2 := passSegs stepNR s1
  let s3 := passSegs stepSP s2
  String.mk (flattenSegs s3)

/-! ## RAG pipeline (rag.py)

External services are an explicit environment: each fallible call is a
field returning Except Unit (a raised exception is the error case), an
embedding vector is an abstract list of numbers (only emptiness is ever
inspected, so its element type is irrelevant and floating point is not
modelled), and the lazily created module-level Pinecone index handle is
explicit state. -/

/-- A Python dict with string keys and values, as an association list
with at most one binding per key. -/
abbrev Dict := List (String × String)

/-- One match returned by the Pinecone index query: each field read
with .get, so each may be absent. -/
structure MatchRec where
  id : Option String
  score : Option Int
  metadata : Option Dict
deriving DecidableEq

/-- Document dict built by query_pinecone from a match. -/
structure DocRec where
  id : Option String
  score : Option Int
  metadata : Dict
  text : String
deriving DecidableEq

/-- The behavior of every external dependency of rag.py. -/
structure Env where
  openaiConfigured : Bool
  embedOutcome : String → Except Unit (List Int)
  pineconeKey : Bool
  pineconeImportOk : Bool
  listIndexesOutcome : Except Unit (List String)
  indexName : String
  indexCreateOutcome : Except Unit Nat
  queryOutcome : List Int → Nat → Option Dict → Except Unit (List MatchRec)
  llmOutcome : String → String → Except Unit String
  upsertOutcome : String → List Int → Dict → Except Unit Unit
  genId : String

/-- The module-level mutable state of rag.py: the lazily created
Pinecone index handle (a handle is identified by a number). -/
structure RagState where
  pinecone_index : Option Nat
deriving DecidableEq

/-- Embeds initialize_pinecone from rag.py: missing key, missing
library, a raising client, a missing index, or a raising index
constructor all return false and leave the handle unset; success
stores the handle. -/
def init_pinecone (env : Env) (s : RagState) : Bool × RagState :=
  if !env.pineconeKey then (false, s)
  else if !env.pineconeImportOk then (false, s)
  else
    match env.listIndexesOutcome with
    | Except.error _ => (false, s)
    | Except.ok idxs =>
      if env.indexName ∈ idxs then
        match env.indexCreateOutcome with
        | Except.error _ => (false, s)
        | Except.ok h => (true, { pinecone_index := some h })
      else (false, s)

/-- Embeds get_embedding from rag.py: an unconfigured client or a
raising call yields the empty list. -/
def get_embedding (env : Env) (text : String) : List Int :=
  if !env.openaiConfigured then []
  else
    match env.embedOutcome text with
    | Except.error _ => []
    | Except.ok v => v

/-- The lazy-initialization prelude shared by query_pinecone and
add_document_to_knowledge_base: reuse the handle when set, otherwise
attempt initialization once. -/
def ensureIndex (env : Env) (s : RagState) : Option Nat × RagState :=
  match s.pinecone_index with
  | some h => (some h, s)
  | none =>
    let r := init_pinecone env s
    (if r.1 then r.2.pinecone_index else none, r.2)

/-- The document dict query_pinecone builds from one match. -/
def docOfMatch (m : MatchRec) : DocRec :=
  { id := m.id
    score := m.score
    metadata := m.metadata.getD []
    text := ((m.metadata.getD []).lookup "text").getD "" }

/-- query_pinecone adds the filter parameter only when the dict is
truthy (non-empty). -/
def filterArg (filter_dict : Option Dict) : Option Dict :=
  match filter_dict with
  | none => none
  | some d => if d.isEmpty then none else some d

/-- Embeds query_pinecone from rag.py: failed initialization, an empty
embedding, or a raising query all produce the empty document list; the
handle state is threaded through. -/
def query_pinecone (env : Env) (s : RagState) (query_text : String) (top_k : Nat)
    (filter_dict : Option Dict) : List DocRec × RagState :=
  match ensureIndex env s with
  | (none, s1) => ([], s1)
  | (some _, s1) =>
    let query_embedding := get_embedding env query_text
    if query_embedding.isEmpty then ([], s1)
    else
      match env.queryOutcome query_embedding top_k (filterArg filter_dict) with
      | Except.error _ => ([], s1)
      | Except.ok ms => (ms.map docOfMatch, s1)

/-- Embeds format_context_from_documents from rag.py. -/
def format_context_from_documents (documents : List DocRec) : String :=
  if documents.isEmpty then ""
  else
    String.intercalate "\n"
      ((documents.enum.map fun p =>
        ["[Document " ++ Nat.repr (p.1 + 1) ++ "]", p.2.text, ""]).flatten)

/-- Python truthiness of the optional industry argument: None and the
empty string are both falsy. -/
def industryTruthy : Option String → Bool
  | none => false
  | some i => !i.isEmpty

/-- The query text get_tekisho_solutions builds. -/
def gtsQueryText (challenge : String) (industry : Option String) : String :=
  if industryTruthy industry then industry.getD "" ++ " industry: " ++ challenge
  else challenge

/-- The metadata filter get_tekisho_solutions builds. -/
def gtsFilter (industry : Option String) : Option Dict :=
  if industryTruthy industry then some [("industry", industry.getD "")] else none

/-- The system prompt of get_tekisho_solutions. -/
def gts_system_prompt : String :=
  "You are Aria, an AI solutions expert at Tekisho.\n        Use the provided context to answer questions about AI solutions, automation, and business challenges.\n        Provide specific metrics, ROI numbers, and implementation timelines when available.\n        Be conversational, helpful, and focus on practical business value.\n        If the context doesn\x27t contain specific information, acknowledge that and provide general guidance."

/-- The user prompt of get_tekisho_solutions. -/
def gts_user_prompt (challenge : String) (industry : Option String) (context : String) : String :=
  "Based on the following context, provide a solution for this challenge:\n \nChallenge: "
    ++ challenge ++ "\n"
    ++ (if industryTruthy industry then "Industry: " ++ industry.getD "" else "")
    ++ "\n \nContext from Tekisho knowledge base:\n" ++ context
    ++ "\n \nProvide a conversational response that:\n1. Addresses the specific challenge\n2. Mentions relevant AI solutions or technologies\n3. Includes metrics like ROI, cost savings, or productivity improvements (if available in context)\n4. Suggests implementation approach or timeline\n5. Keeps it natural and conversational (not bullet points)"

/-- Embeds generate_fallback_response from rag.py. -/
def generate_fallback_response (challenge : String) (industry : Option String) : String :=
  ("I understand you\x27re facing challenges with " ++ challenge ++ ". ")
    ++ (if industryTruthy industry then
          "For businesses in the " ++ industry.getD "" ++ " industry, "
        else "")
    ++ "Tekisho\x27s AI solutions typically deliver significant results. Our clients see ROI ranging from 150 to 300 percent within 6 to 12 weeks. Common benefits include cost savings of 25 to 40 percent and productivity improvements of 50 to 80 percent. I\x27d be happy to connect you with our solution architects who can provide specific recommendations tailored to your needs. Would that be helpful?"

/-- Python str.strip() with no arguments: removes leading and trailing
whitespace. -/
def pyStrip (s : String) : String :=
  String.mk (((s.data.dropWhile isSpc).reverse.dropWhile isSpc).reverse)

/-- The try-block of get_tekisho_solutions: an error value stands for an
exception escaping the block (an unconfigured OpenAI client raises when
its attribute is accessed, and a failing chat completion raises). -/
def gts_try (env : Env) (s : RagState) (challenge : String) (industry : Option String)
    (top_k : Nat) : Except Unit String × RagState :=
  let qr := query_pinecone env s (gtsQueryText challenge industry) top_k (gtsFilter industry)
  if qr.1.isEmpty then (Except.ok (generate_fallback_response challenge industry), qr.2)
  else
    let context := format_context_from_documents qr.1
    if env.openaiConfigured then
      match env.llmOutcome gts_system_prompt (gts_user_prompt challenge industry context) with
      | Except.ok a => (Except.ok (pyStrip a), qr.2)
      | Except.error e => (Except.error e, qr.2)
    else (Except.error (), qr.2)

/-- Embeds get_tekisho_solutions from rag.py: the try-block with the
catch-all except that answers with the fallback. -/
def get_tekisho_solutions (env : Env) (s : RagState) (challenge : String)
    (industry : Option String) (top_k : Nat) : String × RagState :=
  match gts_try env s challenge industry top_k with
  | (Except.ok r, s1) => (r, s1)
  | (Except.error _, s1) => (generate_fallback_response challenge industry, s1)

/-- Python dict assignment d[k] = v on an association list. -/
def dictSet : Dict → String → String → Dict
  | [], k, v => [(k, v)]
  | (k0, v0) :: rest, k, v =>
    if k0 = k then (k, v) :: rest else (k0, v0) :: dictSet rest k v

/-- The document id add_document_to_knowledge_base uses: the given one
when truthy, otherwise a fresh uuid from the environment. -/
def resolveDocId (env : Env) (doc_id : Option String) : String :=
  match doc_id with
  | none => env.genId
  | some d => if d.isEmpty then env.genId else d

/-- Embeds add_document_to_knowledge_base from rag.py; the returned
triple is the result, the handle state, and the caller-visible contents
of the metadata dict (mutated in place by the source). -/
def add_document_to_knowledge_base (env : Env) (s : RagState) (text : String)
    (metadata : Dict) (doc_id : Option String) : Bool × RagState × Dict :=
  match ensureIndex env s with
  | (none, s1) => (false, s1, metadata)
  | (some _, s1) =>
    let embedding := get_embedding env text
    if embedding.isEmpty then (false, s1, metadata)
    else
      let metadata1 := dictSet metadata "text" text
      match env.upsertOutcome (resolveDocId env doc_id) embedding metadata1 with
      | Except.error _ => (false, s1, metadata1)
      | Except.ok _ => (true, s1, metadata1)

/-! ## Helper lemmas about the RAG pipeline -/

/-- An environment in which every external dependency is down: no
OpenAI key, embedding raises, no Pinecone key or library, every index
operation raises, the chat completion raises. -/
def envDown : Env :=
  { openaiConfigured := false
    embedOutcome := fun _ => Except.error ()
    pineconeKey := false
    pineconeImportOk := false
    listIndexesOutcome := Except.error ()
    indexName := "tekisho-rag"
    indexCreateOutcome := Except.error ()
    queryOutcome := fun _ _ _ => Except.error ()
    llmOutcome := fun _ _ => Except.error ()
    upsertOutcome := fun _ _ _ => Except.error ()
    genId := "doc-1" }

/-- An environment in which every external dependency works: one
document comes back from the index and the model answers "OK". -/
def envUp : Env :=
  { openaiConfigured := true
    embedOutcome := fun _ => Except.ok [1]
    pineconeKey := true
    pineconeImportOk := true
    listIndexesOutcome := Except.ok ["tekisho-rag"]
    indexName := "tekisho-rag"
    indexCreateOutcome := Except.ok 7
    queryOutcome := fun _ _ _ =>
      Except.ok [{ id := some "d1", score := some 1,
                   metadata := some [("text", "Tekisho delivers ROI.")] }]
    llmOutcome := fun _ _ => Except.ok "OK"
    upsertOutcome := fun _ _ _ => Except.ok ()
    genId := "doc-1" }

/-- The working environment with an upsert that raises. -/
def envUpsertFail : Env :=
  { envUp with upsertOutcome := fun _ _ _ => Except.error () }

/-! ## Theorems -/

/-- A substitution pass leaves a text unchanged when its pattern matches
at no position of the text. -/
theorem subAux_id (m : List Char → Option (List Char × List Char)) :
    ∀ (fuel : Nat) (cs : List Char), noMatchB m cs = true → subAux m fuel cs = cs := by
  intro fuel
  induction fuel with
  | zero => intro cs _; rfl
  | succ f ih =>
    intro cs h
    cases cs with
    | nil => rfl
    | cons c cs' =>
      rw [noMatchB, Bool.and_eq_true] at h
      have h1 : m (c :: cs') = none := Option.isNone_iff_eq_none.mp h.1
      simp [subAux, h1, ih cs' h.2]

set_option maxRecDepth 10000 in
/-- C1: for every integer n with 0 <= n <= 999, number_to_words renders
the digit string of n exactly by the spec rules: "zero" for 0, ones word
for 1..9, teens word for 10..19, tens word plus optional space and ones
word for 20..99, and ones word, " hundred", and " and " plus the 1..99
rendering of a nonzero remainder for 100..999. -/
theorem c1_number_to_words_exact (n : Nat) (h : n ≤ 999) :
    number_to_words (Nat.repr n) = wordsSpec n := by
  have key : ∀ m : Nat, m < 1000 → number_to_words (Nat.repr m) = wordsSpec m := by decide
  exact key n (by omega)

/-- Witness for C1 at n = 150. -/
theorem c1_witness :
    150 ≤ 999 ∧ number_to_words (Nat.repr 150) = wordsSpec 150 :=
  ⟨by decide, c1_number_to_words_exact 150 (by decide)⟩

/-- C3 counterexample: the matched text "1500%" contains a number of
1000 or more, yet format rewrites it to "1500 percent" instead of
leaving the match untouched. -/
theorem c3_counterexample :
    format_numbers_for_speech "1500%" = "1500 percent" ∧
    format_numbers_for_speech "1500%" ≠ "1500%" := by
  constructor
  · rfl
  · decide

/-- C3 amended: for a numeric capture of value 1000 or more,
number_to_words returns the digit substring verbatim, so the digits
survive unchanged in the formatter output, although the surrounding
punctuation of the match (the dash and the percent sign) is still
rewritten. -/
theorem c3_amended_digits_verbatim (s : String) (h : 1000 ≤ strToNat s) :
    number_to_words s = s := by
  unfold number_to_words
  have h0 : ¬ strToNat s = 0 := by omega
  have h1 : ¬ strToNat s < 10 := by omega
  have h2 : ¬ strToNat s < 20 := by omega
  have h3 : ¬ strToNat s < 100 := by omega
  have h4 : ¬ strToNat s < 1000 := by omega
  simp only [h0, h1, h2, h3, h4, if_false, ite_false]

/-- Witness for the amended C3 at "1500". -/
theorem c3_witness :
    1000 ≤ strToNat "1500" ∧ number_to_words "1500" = "1500" :=
  ⟨by decide, c3_amended_digits_verbatim "1500" (by decide)⟩

/-- C7 counterexample: format is not idempotent; on
"3-4 week6-8 weeks" the unit-range replacement manufactures a new
"3-4 weeks" match that a second application converts again. -/
theorem c7_counterexample :
    format_numbers_for_speech (format_numbers_for_speech "3-4 week6-8 weeks") ≠
      format_numbers_for_speech "3-4 week6-8 weeks" := by
  decide

/-- C7 amended: format leaves a string unchanged when none of the three
numeric patterns matches at any position of it; full idempotence fails
because a replacement can complete a unit word for a fresh unit-range
match. -/
theorem c7_amended_identity_without_matches (s : String)
    (h : noMatchB stepPR s.data = true ∧ noMatchB stepNR s.data = true ∧
         noMatchB stepSP s.data = true) :
    format_numbers_for_speech s = s := by
  show String.mk (reSub stepSP (reSub stepNR (reSub stepPR s.data))) = s
  unfold reSub
  rw [subAux_id stepPR _ _ h.1, subAux_id stepNR _ _ h.2.1, subAux_id stepSP _ _ h.2.2]

/-- Witness for the amended C7 at "hello world". -/
theorem c7_witness :
    (noMatchB stepPR "hello world".data = true ∧
     noMatchB stepNR "hello world".data = true ∧
     noMatchB stepSP "hello world".data = true) ∧
    format_numbers_for_speech "hello world" = "hello world" :=
  ⟨by decide, c7_amended_identity_without_matches "hello world" (by decide)⟩

/-- C5 counterexample: on "3-4 week6-1000%" the unit-range pass matches
"3-4 weeks" whose final character is the first character of the
percent-range replacement "six to 1000 percent", so a later pass does
consume part of an earlier replacement: the source formatter and the
spec-worded protected formatter disagree. -/
theorem c5_counterexample :
    format_numbers_for_speech "3-4 week6-1000%" = "three to four weeksix to 1000 percent" ∧
    formatProtectedSpec "3-4 week6-1000%" = "3-4 weeksix to 1000 percent" ∧
    format_numbers_for_speech "3-4 week6-1000%" ≠ formatProtectedSpec "3-4 week6-1000%" := by
  refine ⟨rfl, rfl, ?_⟩
  decide

/-- C5 amended: the three passes run in the fixed order percent-range,
unit-range, single-percent, each on the previous output; a percent-range
match consumes digits that the single-percent pattern would otherwise
convert, so in "25-35%" the text "35%" is never converted by the
single-percent pass (after pass one, no single-percent match remains);
but a later pass may consume the leading character of an earlier
replacement when a unit word straddles the boundary. -/
theorem c5_amended_pass_order :
    (∀ s : String, format_numbers_for_speech s =
      String.mk (reSub stepSP (reSub stepNR (reSub stepPR s.data)))) ∧
    format_numbers_for_speech "25-35%" = "twenty five to thirty five percent" ∧
    noMatchB stepSP (reSub stepPR "25-35%".data) = true :=
  ⟨fun _ => rfl, rfl, by decide⟩

/-- A failed initialization changes nothing. -/
theorem init_pinecone_fail_state (env : Env) (s : RagState)
    (h : (init_pinecone env s).1 = false) : init_pinecone env s = (false, s) := by
  unfold init_pinecone at h ⊢
  cases hk : env.pineconeKey
  · simp [hk]
  · cases hm : env.pineconeImportOk
    · simp [hk, hm]
    · rcases hl : env.listIndexesOutcome with e | idxs
      · simp [hk, hm, hl]
      · by_cases hn : env.indexName ∈ idxs
        · rcases hc : env.indexCreateOutcome with e | hdl
          · simp [hk, hm, hl, hn, hc]
          · rw [hk, hm, hl] at h
            simp [hn, hc] at h
        · simp [hk, hm, hl, hn]

/-- A set handle is reused as is. -/
theorem ensureIndex_some (env : Env) (s : RagState) (h : Nat)
    (hs : s.pinecone_index = some h) : ensureIndex env s = (some h, s) := by
  simp [ensureIndex, hs]

/-- With no handle and failing initialization, nothing is produced and
nothing changes. -/
theorem ensureIndex_none (env : Env) (s : RagState)
    (hs : s.pinecone_index = none) (hf : (init_pinecone env s).1 = false) :
    ensureIndex env s = (none, s) := by
  simp [ensureIndex, hs, init_pinecone_fail_state env s hf]

/-- get_embedding yields the empty vector when the call errors or
returns the empty vector. -/
theorem get_embedding_empty (env : Env) (t : String)
    (h : env.embedOutcome t = Except.ok [] ∨ env.embedOutcome t = Except.error ()) :
    get_embedding env t = [] := by
  unfold get_embedding
  cases hc : env.openaiConfigured
  · simp
  · rcases h with h | h <;> simp [h]

/-- query_pinecone yields no documents when the embedding is empty. -/
theorem query_pinecone_empty_of_embedding_empty (env : Env) (s : RagState)
    (q : String) (k : Nat) (f : Option Dict) (h : get_embedding env q = []) :
    (query_pinecone env s q k f).1 = [] := by
  unfold query_pinecone
  rcases he : ensureIndex env s with ⟨ho, s1⟩
  cases ho
  · rfl
  · simp [h]

/-- query_pinecone yields no documents when the index query raises. -/
theorem query_pinecone_empty_of_query_error (env : Env) (s : RagState)
    (q : String) (k : Nat) (f : Option Dict)
    (h : ∀ v n fd, env.queryOutcome v n fd = Except.error ()) :
    (query_pinecone env s q k f).1 = [] := by
  unfold query_pinecone
  rcases he : ensureIndex env s with ⟨ho, s1⟩
  cases ho
  · rfl
  · cases hemb : (get_embedding env q).isEmpty <;> simp [hemb, h]

/-- query_pinecone yields no documents when there is no handle and
initialization fails. -/
theorem query_pinecone_empty_of_no_index (env : Env) (s : RagState)
    (q : String) (k : Nat) (f : Option Dict)
    (hs : s.pinecone_index = none) (hf : (init_pinecone env s).1 = false) :
    (query_pinecone env s q k f).1 = [] := by
  unfold query_pinecone
  rw [ensureIndex_none env s hs hf]

/-- The retrieval result is the fallback when no documents come back. -/
theorem gts_result_of_docs_empty (env : Env) (s : RagState) (ch : String)
    (ind : Option String) (k : Nat)
    (h : (query_pinecone env s (gtsQueryText ch ind) k (gtsFilter ind)).1 = []) :
    (get_tekisho_solutions env s ch ind k).1 = generate_fallback_response ch ind := by
  unfold get_tekisho_solutions gts_try
  simp [h]

/-- The retrieval result is the fallback when the chat completion
always raises. -/
theorem gts_result_of_llm_error (env : Env) (s : RagState) (ch : String)
    (ind : Option String) (k : Nat)
    (h : ∀ sp up, env.llmOutcome sp up = Except.error ()) :
    (get_tekisho_solutions env s ch ind k).1 = generate_fallback_response ch ind := by
  unfold get_tekisho_solutions gts_try
  cases hq : (query_pinecone env s (gtsQueryText ch ind) k (gtsFilter ind)).1.isEmpty
  · cases hc : env.openaiConfigured <;> simp [hq, hc, h]
  · simp [hq]

/-- The retrieval result is the fallback when the OpenAI client is not
configured. -/
theorem gts_result_of_unconfigured (env : Env) (s : RagState) (ch : String)
    (ind : Option String) (k : Nat) (h : env.openaiConfigured = false) :
    (get_tekisho_solutions env s ch ind k).1 = generate_fallback_response ch ind := by
  unfold get_tekisho_solutions gts_try
  cases hq : (query_pinecone env s (gtsQueryText ch ind) k (gtsFilter ind)).1.isEmpty <;>
    simp [hq, h]

/-- The character list of the fallback text, with the pieces exposed. -/
theorem fallback_data (ch : String) (ind : Option String) :
    (generate_fallback_response ch ind).data =
      "I understand you\x27re facing challenges with ".data ++ ch.data ++ ". ".data
        ++ (if industryTruthy ind then
              "For businesses in the ".data ++ (ind.getD "").data ++ " industry, ".data
            else [])
        ++ "Tekisho\x27s AI solutions typically deliver significant results. Our clients see ROI ranging from 150 to 300 percent within 6 to 12 weeks. Common benefits include cost savings of 25 to 40 percent and productivity improvements of 50 to 80 percent. I\x27d be happy to connect you with our solution architects who can provide specific recommendations tailored to your needs. Would that be helpful?".data := by
  unfold generate_fallback_response
  by_cases hI : industryTruthy ind = true
  · rw [if_pos hI, if_pos hI]
    simp only [String.data_append, List.append_assoc]
  · rw [if_neg hI, if_neg hI]
    simp only [String.data_append, List.append_assoc,
      show ("" : String).data = [] from rfl, List.append_nil, List.nil_append]

/-- The fallback text is never the empty string. -/
theorem fallback_ne_empty (ch : String) (ind : Option String) :
    generate_fallback_response ch ind ≠ "" := by
  intro h
  have hd : (generate_fallback_response ch ind).data = [] := by rw [h]
  rw [fallback_data] at hd
  rcases List.append_eq_nil.mp hd with ⟨hd1, _⟩
  rcases List.append_eq_nil.mp hd1 with ⟨hd2, _⟩
  rcases List.append_eq_nil.mp hd2 with ⟨hd3, _⟩
  rcases List.append_eq_nil.mp hd3 with ⟨hd4, _⟩
  exact absurd hd4 (by decide)

/-- The challenge text appears verbatim inside the fallback text. -/
theorem challenge_infix_fallback (ch : String) (ind : Option String) :
    ch.data <:+: (generate_fallback_response ch ind).data := by
  rw [fallback_data]
  exact ⟨"I understand you\x27re facing challenges with ".data,
    ". ".data
      ++ (if industryTruthy ind then
            "For businesses in the ".data ++ (ind.getD "").data ++ " industry, ".data
          else [])
      ++ "Tekisho\x27s AI solutions typically deliver significant results. Our clients see ROI ranging from 150 to 300 percent within 6 to 12 weeks. Common benefits include cost savings of 25 to 40 percent and productivity improvements of 50 to 80 percent. I\x27d be happy to connect you with our solution architects who can provide specific recommendations tailored to your needs. Would that be helpful?".data,
    by simp only [List.append_assoc]⟩

/-- A non-empty optional industry is truthy. -/
theorem industryTruthy_some (i : String) (h : i ≠ "") :
    industryTruthy (some i) = true := by
  have hie : i.isEmpty = false := by
    rw [Bool.eq_false_iff]
    intro hh
    exact h ((String.isEmpty_iff i).mp hh)
  show (!i.isEmpty) = true
  rw [hie]
  rfl

/-- A non-empty industry appears verbatim inside the fallback text. -/
theorem industry_infix_fallback (ch i : String) (h : i ≠ "") :
    i.data <:+: (generate_fallback_response ch (some i)).data := by
  rw [fallback_data, industryTruthy_some i h]
  simp only [if_true, Option.getD_some]
  exact ⟨"I understand you\x27re facing challenges with ".data ++ ch.data ++ ". ".data
      ++ "For businesses in the ".data,
    " industry, ".data
      ++ "Tekisho\x27s AI solutions typically deliver significant results. Our clients see ROI ranging from 150 to 300 percent within 6 to 12 weeks. Common benefits include cost savings of 25 to 40 percent and productivity improvements of 50 to 80 percent. I\x27d be happy to connect you with our solution architects who can provide specific recommendations tailored to your needs. Would that be helpful?".data,
    by simp only [List.append_assoc]⟩

/-- C2: for every challenge, industry and behavior of the external
dependencies in which the embedding service is unconfigured or yields
an empty vector, the index is missing or fails to initialize, the index
query raises, or the model call raises, get_tekisho_solutions returns
the deterministic fallback string; the exception is absorbed, never
propagated (get_tekisho_solutions is a total function into String by
construction of the embedding). -/
theorem c2_failures_absorbed (env : Env) (s : RagState) (ch : String)
    (ind : Option String) (k : Nat)
    (hfail :
      env.openaiConfigured = false ∨
      (∀ t, env.embedOutcome t = Except.ok []) ∨
      (∀ t, env.embedOutcome t = Except.error ()) ∨
      (s.pinecone_index = none ∧ (init_pinecone env s).1 = false) ∨
      (∀ v n fd, env.queryOutcome v n fd = Except.error ()) ∨
      (∀ sp up, env.llmOutcome sp up = Except.error ())) :
    (get_tekisho_solutions env s ch ind k).1 = generate_fallback_response ch ind := by
  rcases hfail with h | h | h | ⟨h1, h2⟩ | h | h
  · exact gts_result_of_unconfigured env s ch ind k h
  · exact gts_result_of_docs_empty env s ch ind k
      (query_pinecone_empty_of_embedding_empty env s _ k _
        (get_embedding_empty env _ (Or.inl (h _))))
  · exact gts_result_of_docs_empty env s ch ind k
      (query_pinecone_empty_of_embedding_empty env s _ k _
        (get_embedding_empty env _ (Or.inr (h _))))
  · exact gts_result_of_docs_empty env s ch ind k
      (query_pinecone_empty_of_no_index env s _ k _ h1 h2)
  · exact gts_result_of_docs_empty env s ch ind k
      (query_pinecone_empty_of_query_error env s _ k _ h)
  · exact gts_result_of_llm_error env s ch ind k h

/-- Witness for C2 in the all-dependencies-down environment. -/
theorem c2_witness :
    envDown.openaiConfigured = false ∧
    (get_tekisho_solutions envDown { pinecone_index := none }
        "supply chain delays" (some "retail") 5).1 =
      generate_fallback_response "supply chain delays" (some "retail") :=
  ⟨rfl, c2_failures_absorbed envDown { pinecone_index := none }
    "supply chain delays" (some "retail") 5 (Or.inl rfl)⟩

/-- C4 counterexample: with documents retrieved and a successful model
call the returned string is the model answer, which need not contain
the challenge text: with challenge "foo" the result is "OK". -/
theorem c4_counterexample :
    (get_tekisho_solutions envUp { pinecone_index := some 7 } "foo" none 5).1 = "OK" ∧
    ¬ ("foo".data <:+: (("OK" : String)).data) := by
  constructor
  · rfl
  · intro h
    exact absurd h.length_le (by decide)

/-- C4 amended: on every fallback path (no documents retrieved, model
client unconfigured, or model call failure) the string returned by
get_tekisho_solutions is non-empty, contains the literal challenge
text, and contains the literal industry text whenever a non-empty
industry is given; when documents are retrieved and the model call
succeeds the result is the trimmed model answer, which need not contain
the challenge. -/
theorem c4_amended_fallback_contains (env : Env) (s : RagState) (ch : String)
    (ind : Option String) (k : Nat)
    (hfail :
      (query_pinecone env s (gtsQueryText ch ind) k (gtsFilter ind)).1 = [] ∨
      env.openaiConfigured = false ∨
      (∀ sp up, env.llmOutcome sp up = Except.error ())) :
    (get_tekisho_solutions env s ch ind k).1 ≠ "" ∧
    ch.data <:+: ((get_tekisho_solutions env s ch ind k).1).data ∧
    ∀ i, ind = some i → i ≠ "" →
      i.data <:+: ((get_tekisho_solutions env s ch ind k).1).data := by
  have hr : (get_tekisho_solutions env s ch ind k).1 = generate_fallback_response ch ind := by
    rcases hfail with h | h | h
    · exact gts_result_of_docs_empty env s ch ind k h
    · exact gts_result_of_unconfigured env s ch ind k h
    · exact gts_result_of_llm_error env s ch ind k h
  rw [hr]
  refine ⟨fallback_ne_empty ch ind, challenge_infix_fallback ch ind, ?_⟩
  intro i hi hne
  rw [hi]
  exact industry_infix_fallback ch i hne

/-- Witness for the amended C4 in the all-down environment. -/
theorem c4_witness :
    envDown.openaiConfigured = false ∧
    ((get_tekisho_solutions envDown { pinecone_index := none } "foo" (some "logistics") 5).1 ≠ "" ∧
     "foo".data <:+:
       ((get_tekisho_solutions envDown { pinecone_index := none } "foo" (some "logistics") 5).1).data ∧
     ∀ i, (some "logistics" : Option String) = some i → i ≠ "" →
       i.data <:+:
         ((get_tekisho_solutions envDown { pinecone_index := none } "foo" (some "logistics") 5).1).data) :=
  ⟨rfl, c4_amended_fallback_contains envDown { pinecone_index := none }
    "foo" (some "logistics") 5 (Or.inr (Or.inl rfl))⟩

/-- C6: whenever retrieval yields no usable documents or the model call
fails, get_tekisho_solutions returns exactly the deterministic template
made of the challenge sentence, the optional industry clause and one
fixed closing paragraph; the text depends only on challenge and
industry, not on which dependency failed or why. -/
theorem c6_fallback_template (env : Env) (s : RagState) (ch : String)
    (ind : Option String) (k : Nat)
    (hfail :
      (query_pinecone env s (gtsQueryText ch ind) k (gtsFilter ind)).1 = [] ∨
      env.openaiConfigured = false ∨
      (∀ sp up, env.llmOutcome sp up = Except.error ())) :
    (get_tekisho_solutions env s ch ind k).1 =
      ("I understand you\x27re facing challenges with " ++ ch ++ ". ")
        ++ (if industryTruthy ind then
              "For businesses in the " ++ ind.getD "" ++ " industry, "
            else "")
        ++ "Tekisho\x27s AI solutions typically deliver significant results. Our clients see ROI ranging from 150 to 300 percent within 6 to 12 weeks. Common benefits include cost savings of 25 to 40 percent and productivity improvements of 50 to 80 percent. I\x27d be happy to connect you with our solution architects who can provide specific recommendations tailored to your needs. Would that be helpful?" := by
  rcases hfail with h | h | h
  · exact gts_result_of_docs_empty env s ch ind k h
  · exact gts_result_of_unconfigured env s ch ind k h
  · exact gts_result_of_llm_error env s ch ind k h

/-- Witness for C6: the all-down environment produces the template. -/
theorem c6_witness :
    (∀ sp up, envDown.llmOutcome sp up = Except.error ()) ∧
    (get_tekisho_solutions envDown { pinecone_index := none } "slow invoicing" none 5).1 =
      ("I understand you\x27re facing challenges with " ++ "slow invoicing" ++ ". ")
        ++ (if industryTruthy none then
              "For businesses in the " ++ (none : Option String).getD "" ++ " industry, "
            else "")
        ++ "Tekisho\x27s AI solutions typically deliver significant results. Our clients see ROI ranging from 150 to 300 percent within 6 to 12 weeks. Common benefits include cost savings of 25 to 40 percent and productivity improvements of 50 to 80 percent. I\x27d be happy to connect you with our solution architects who can provide specific recommendations tailored to your needs. Would that be helpful?" :=
  ⟨fun _ _ => rfl, c6_fallback_template envDown { pinecone_index := none }
    "slow invoicing" none 5 (Or.inr (Or.inr fun _ _ => rfl))⟩

/-- The state coming out of query_pinecone is the state left by the
lazy-initialization prelude. -/
theorem query_pinecone_snd (env : Env) (s : RagState) (q : String) (k : Nat)
    (f : Option Dict) : (query_pinecone env s q k f).2 = (ensureIndex env s).2 := by
  unfold query_pinecone
  rcases he : ensureIndex env s with ⟨ho, s1⟩
  cases ho
  · rfl
  · cases hemb : (get_embedding env q).isEmpty
    · cases ho2 : env.queryOutcome (get_embedding env q) k (filterArg f) <;> simp [hemb, ho2]
    · simp [hemb]

/-- The state coming out of add_document_to_knowledge_base is the state
left by the lazy-initialization prelude. -/
theorem add_document_snd (env : Env) (s : RagState) (t : String) (m : Dict)
    (d : Option String) :
    (add_document_to_knowledge_base env s t m d).2.1 = (ensureIndex env s).2 := by
  unfold add_document_to_knowledge_base
  rcases he : ensureIndex env s with ⟨ho, s1⟩
  cases ho
  · rfl
  · cases hemb : (get_embedding env t).isEmpty
    · cases ho2 : env.upsertOutcome (resolveDocId env d) (get_embedding env t)
        (dictSet m "text" t) <;> simp [hemb, ho2]
    · simp [hemb]

/-- C8: the index handle is created at most once and reused: when the
handle is already set, neither the query operation nor the add-document
operation changes the state (so the handle is never replaced or
re-created), and when the handle is unset and initialization fails the
query returns no documents and the add returns false, both leaving the
handle unset. -/
theorem c8_handle_created_once :
    (∀ (env : Env) (s : RagState) (h : Nat) (q : String) (k : Nat) (f : Option Dict)
        (t : String) (m : Dict) (d : Option String), s.pinecone_index = some h →
      (query_pinecone env s q k f).2 = s ∧
      (add_document_to_knowledge_base env s t m d).2.1 = s) ∧
    (∀ (env : Env) (s : RagState) (q : String) (k : Nat) (f : Option Dict)
        (t : String) (m : Dict) (d : Option String),
      s.pinecone_index = none → (init_pinecone env s).1 = false →
      query_pinecone env s q k f = ([], s) ∧
      (add_document_to_knowledge_base env s t m d).1 = false ∧
      (add_document_to_knowledge_base env s t m d).2.1 = s) := by
  constructor
  · intro env s h q k f t m d hs
    have he := ensureIndex_some env s h hs
    constructor
    · rw [query_pinecone_snd, he]
    · rw [add_document_snd, he]
  · intro env s q k f t m d hs hf
    have he := ensureIndex_none env s hs hf
    refine ⟨?_, ?_, ?_⟩
    · unfold query_pinecone
      rw [he]
    · unfold add_document_to_knowledge_base
      rw [he]
    · rw [add_document_snd, he]

/-- Witness for C8: a set handle is reused untouched, and with a down
environment the query degrades to no documents. -/
theorem c8_witness :
    (query_pinecone envUp { pinecone_index := some 7 } "q" 5 none).2 =
      { pinecone_index := some 7 } ∧
    query_pinecone envDown { pinecone_index := none } "q" 5 none =
      ([], { pinecone_index := none }) :=
  ⟨(c8_handle_created_once.1 envUp { pinecone_index := some 7 } 7 "q" 5 none
      "t" [] none rfl).1,
   (c8_handle_created_once.2 envDown { pinecone_index := none } "q" 5 none
      "t" [] none rfl rfl).1⟩

/-- Looking up the key just set yields the new value. -/
theorem dictSet_lookup (m : Dict) (k v : String) :
    (dictSet m k v).lookup k = some v := by
  induction m with
  | nil => simp [dictSet, List.lookup]
  | cons p rest ih =>
    rcases p with ⟨k0, v0⟩
    by_cases h : k0 = k
    · simp [dictSet, h, List.lookup]
    · have hb : (k == k0) = false := by
        rw [beq_eq_false_iff_ne]
        exact fun hh => h hh.symm
      simp [dictSet, h, List.lookup, hb, ih]

/-- C9: when the index is available and the embedding succeeds,
add_document_to_knowledge_base overwrites the "text" key of the
caller-supplied metadata dict with the document text, and the mutation
persists even when the upsert fails and the call returns false; when
the index is unavailable or the embedding is empty, it returns false
with the metadata unchanged. -/
theorem c9_metadata_mutation (env : Env) (s : RagState) (t : String) (m : Dict)
    (d : Option String) :
    ((ensureIndex env s).1 = none →
      add_document_to_knowledge_base env s t m d = (false, (ensureIndex env s).2, m)) ∧
    ((ensureIndex env s).1 ≠ none → get_embedding env t = [] →
      add_document_to_knowledge_base env s t m d = (false, (ensureIndex env s).2, m)) ∧
    ((ensureIndex env s).1 ≠ none → get_embedding env t ≠ [] →
      (add_document_to_knowledge_base env s t m d).2.2 = dictSet m "text" t ∧
      (dictSet m "text" t).lookup "text" = some t ∧
      (env.upsertOutcome (resolveDocId env d) (get_embedding env t) (dictSet m "text" t)
          = Except.error () →
        (add_document_to_knowledge_base env s t m d).1 = false)) := by
  unfold add_document_to_knowledge_base
  rcases he : ensureIndex env s with ⟨ho, s1⟩
  cases ho with
  | none =>
    exact ⟨fun _ => rfl, fun hne _ => absurd rfl hne, fun hne _ => absurd rfl hne⟩
  | some h =>
    refine ⟨fun h0 => Option.noConfusion h0, fun _ hemb => ?_, fun _ hne => ?_⟩
    · simp [hemb]
    · have hemb : (get_embedding env t).isEmpty = false := by
        cases hg : get_embedding env t
        · exact absurd hg hne
        · rfl
      refine ⟨?_, dictSet_lookup m "text" t, fun herr => ?_⟩
      · cases ho2 : env.upsertOutcome (resolveDocId env d) (get_embedding env t)
          (dictSet m "text" t) <;> simp [hemb, ho2]
      · simp [hemb, herr]

/-- Witness for C9: with a set handle, a working embedding and a
failing upsert, the metadata "text" entry is overwritten while the call
returns false. -/
theorem c9_witness :
    ((ensureIndex envUpsertFail { pinecone_index := some 7 }).1 ≠ none ∧
     get_embedding envUpsertFail "New doc" ≠ []) ∧
    (add_document_to_knowledge_base envUpsertFail { pinecone_index := some 7 }
        "New doc" [("industry", "retail"), ("text", "old")] none).2.2 =
      dictSet [("industry", "retail"), ("text", "old")] "text" "New doc" ∧
    (add_document_to_knowledge_base envUpsertFail { pinecone_index := some 7 }
        "New doc" [("industry", "retail"), ("text", "old")] none).1 = false :=
  have h1 : (ensureIndex envUpsertFail { pinecone_index := some 7 }).1 ≠ none := by decide
  have h2 : get_embedding envUpsertFail "New doc" ≠ [] := by decide
  have main := (c9_metadata_mutation envUpsertFail { pinecone_index := some 7 }
    "New doc" [("industry", "retail"), ("text", "old")] none).2.2 h1 h2
  ⟨⟨h1, h2⟩, main.1, main.2.2 rfl⟩

/-- C10: an empty-string industry behaves exactly like an absent
industry: same retrieval result, the challenge is the query text
verbatim, no metadata filter is built, and the fallback omits the
industry clause. -/
theorem c10_empty_industry_like_none (env : Env) (s : RagState) (ch : String) (k : Nat) :
    get_tekisho_solutions env s ch (some "") k = get_tekisho_solutions env s ch none k ∧
    gtsQueryText ch (some "") = ch ∧
    gtsFilter (some "") = none ∧
    generate_fallback_response ch (some "") = generate_fallback_response ch none :=
  ⟨rfl, rfl, rfl, rfl⟩
